import Mathlib

set_option maxRecDepth 100000

/-!
Verification of the DynamoDB demo notebook (`dynamo-with-stream.ipynb`).

The one algorithmic piece of the repository is the stream shard walker
(the "read ALL the available shards" cell): for each shard of the stream it
acquires a TRIM_HORIZON iterator, fetches the first batch, and then loops:
emit the batch's records (event name plus the Author/Title key attributes),
and if the response carries a `NextShardIterator`, increment `count`, fetch
with that iterator, and stop once `count > 150` ("polling limit"); if the
response carries no next iterator the shard is closed and the loop ends.

The remote service is a parameter: a function from an (opaque, modelled as
`Nat`) shard iterator to either a client error or a batch of records plus an
optional next iterator.  A fetch that raises is an `Except.error`; the
walker has no handler around `get_records`, so in the embedding an error
ends the walk with a `failed` outcome carrying the error.

The loop is embedded with a fuel argument for structural recursion.  The
`count > 150` check bounds the loop at 151 body iterations, so fuel `151`
at entry (`count = 0`) is never exhausted; `walkAux_fuel_irrelevant` below
proves the fuel does not influence the result whenever it is sufficient,
so the embedding computes exactly what the source loop does.

The notebook's other cells are single calls into the external DynamoDB
service wrapped in `try/except`; the service-side behaviour for those is
modelled from the spec (see the doc comments marked "Modelled from the
spec").
-/

/-- Error taxonomy of the external service, as surfaced to the notebook.
`resourceInUse`, `resourceNotFound`, `conditionalCheckFailed` and
`serviceError` (generic throttling/auth style failures) are botocore
`ClientError`s; `networkError` stands for a non-`ClientError` exception. -/
inductive DbError
  | resourceInUse
  | resourceNotFound
  | conditionalCheckFailed
  | serviceError
  | networkError
  deriving DecidableEq, Repr

/-- Whether an error is a botocore `ClientError` (caught by
`except ClientError` handlers in the notebook). -/
def DbError.isClientError : DbError → Bool
  | .networkError => false
  | _ => true

/-- One DynamoDB stream change record, reduced to the fields the walker
reads: `eventName` and the `Author`/`Title` key attributes. -/
structure StreamRecord where
  eventName : String
  author : String
  title : String
  deriving DecidableEq, Repr

/-- Response of `get_records`: a batch of records and the optional
`NextShardIterator` (absent exactly when the shard is closed). -/
structure GetRecordsRes where
  records : List StreamRecord
  nextShardIterator : Option Nat
  deriving DecidableEq, Repr

/-- How a per-shard walk ended: the shard closed (with the final value of
the `count` variable), the demo polling limit was reached, or an uncaught
fetch error aborted the walk. -/
inductive ShardOutcome
  | closed (finalCount : Nat)
  | pollLimit
  | failed (e : DbError)
  deriving DecidableEq, Repr

/-- Whether a walk ended by an uncaught fetch error. -/
def ShardOutcome.isFailed : ShardOutcome → Bool
  | .failed _ => true
  | _ => false

/-- Observable trace of one per-shard walk: the lines printed for records
(in print order), every iterator value passed to `get_records` (in call
order), how the walk ended, and the number of `while` body iterations. -/
structure WalkTrace where
  emitted : List (String × String × String)
  fetched : List Nat
  outcome : ShardOutcome
  iterations : Nat
  deriving DecidableEq, Repr

/-- What the walker prints for one record: event name and the two key
attributes. -/
def emitRecord (r : StreamRecord) : String × String × String :=
  (r.eventName, r.author, r.title)

/-- The `while loop:` body of the shard-reading cell.  `res` is the current
`get_records` response, `count` the poll counter.  Each iteration emits the
batch's records; if a `NextShardIterator` is present the counter is
incremented, the next batch is fetched with it (an error propagates: the
walk ends `failed`), and the loop stops when the incremented counter
exceeds 150 (`pollLimit`, discarding the just-fetched response exactly as
the source does); with no next iterator the shard is `closed`. -/
def walkAux (svc : Nat → Except DbError GetRecordsRes) :
    Nat → GetRecordsRes → Nat → WalkTrace
  | 0, _, _ => ⟨[], [], .pollLimit, 0⟩
  | fuel + 1, res, count =>
    match res.nextShardIterator with
    | none => ⟨res.records.map emitRecord, [], .closed count, 1⟩
    | some c =>
      match svc c with
      | .error e => ⟨res.records.map emitRecord, [c], .failed e, 1⟩
      | .ok res2 =>
        if count + 1 > 150 then
          ⟨res.records.map emitRecord, [c], .pollLimit, 1⟩
        else
          let t := walkAux svc fuel res2 (count + 1)
          ⟨res.records.map emitRecord ++ t.emitted, c :: t.fetched,
            t.outcome, t.iterations + 1⟩

/-- One shard's walk: fetch once with the freshly acquired TRIM_HORIZON
iterator `initIter` (an error here propagates before the loop is entered),
then run the loop with `count = 0`. -/
def walkShard (svc : Nat → Except DbError GetRecordsRes) (initIter : Nat) :
    WalkTrace :=
  match svc initIter with
  | .error e => ⟨[], [initIter], .failed e, 0⟩
  | .ok res =>
    let t := walkAux svc 151 res 0
    ⟨t.emitted, initIter :: t.fetched, t.outcome, t.iterations⟩

/-- The outer `for shard in ... :` loop: walk each listed shard in order
with its own TRIM_HORIZON iterator (`getIter`).  An uncaught fetch error
aborts the whole cell, so shards after a failed one are never walked. -/
def walkAllShards (svc : Nat → Except DbError GetRecordsRes)
    (getIter : String → Nat) : List String → List (String × WalkTrace)
  | [] => []
  | sid :: rest =>
    let t := walkShard svc (getIter sid)
    match t.outcome with
    | .failed _ => [(sid, t)]
    | _ => (sid, t) :: walkAllShards svc getIter rest

/-- The `get_records` response of a service that serves the fixed batch
list `batches` with stable cursors: cursor `k` returns batch `k` and the
next cursor `k + 1`, closing the shard after the last batch. -/
def batchRes (batches : List (List StreamRecord)) (k : Nat) : GetRecordsRes :=
  ⟨batches.getD k [], if k + 1 < batches.length then some (k + 1) else none⟩

/-- A stable-cursor service returning the record sequence of one shard as
the batch list `batches` (TRIM_HORIZON iterator `0`), never failing. -/
def batchService (batches : List (List StreamRecord)) (c : Nat) :
    Except DbError GetRecordsRes :=
  .ok (batchRes batches c)

/-- A shard that never closes and never delivers data: every fetch returns
an empty batch and a next cursor. -/
def svcOpen (c : Nat) : Except DbError GetRecordsRes :=
  .ok ⟨[], some (c + 1)⟩

/-- A service whose every fetch fails with a generic service error. -/
def svcFail (_ : Nat) : Except DbError GetRecordsRes :=
  .error .serviceError

/-- A batch list of 152 batches whose single record sits in the last
batch, past the demo polling limit. -/
def cxBatches : List (List StreamRecord) :=
  List.replicate 151 [] ++ [[⟨"INSERT", "Heiwad", "Lost Batch"⟩]]

/-- The link relation the walker's fetch sequence follows: `a` links to
`b` when fetching `a` succeeds and returns `b` as the next iterator. -/
def linksTo (svc : Nat → Except DbError GetRecordsRes) (a b : Nat) : Prop :=
  ∃ r, svc a = Except.ok r ∧ r.nextShardIterator = some b

/-- Modelled from the spec: the external database's version-conditioned
compare-and-swap update (`update_item` with
`ConditionExpression "Version = :ver"`), whose arbitration lives in the
DynamoDB service, not in this repository.  Only the attributes the
notebook's scenario touches are kept: `Rating` and `Version`. -/
structure BookItem where
  rating : Int
  version : Nat
  deriving DecidableEq, Repr

/-- Modelled from the spec: a conditioned update succeeds and applies the
`SET` expression exactly when the item's `Version` equals the expected
value, and fails with `ConditionalCheckFailed` otherwise. -/
def update_item_conditional (item : BookItem) (expectedVer : Nat)
    (newRating : Int) (newVer : Nat) : Except DbError BookItem :=
  if item.version = expectedVer then .ok ⟨newRating, newVer⟩
  else .error .conditionalCheckFailed

/-- What the caller of the repeated conditional-update cell observes:
either the updated item, the caught `ConditionalCheckFailed` message, or
another printed client error. -/
inductive UpdateObservation
  | updated (item : BookItem)
  | conditionFailed
  | otherError (e : DbError)
  deriving DecidableEq, Repr

/-- The repeat-the-same-conditional-update cell: issue the conditioned
update expecting `Version = 2` (setting `Rating = 1`, `Version = 3`) and
branch on the result the way its `try/except` does. -/
def observeRepeatUpdate (item : BookItem) : UpdateObservation :=
  match update_item_conditional item 2 1 3 with
  | .ok it => .updated it
  | .error .conditionalCheckFailed => .conditionFailed
  | .error e => .otherError e

/-- Modelled from the spec: the external service's `create_table`, which
fails with `ResourceInUse` when the name exists and otherwise creates the
table.  Table state is the list of existing table names. -/
def create_table (tables : List String) (name : String) :
    Except DbError (List String) :=
  if name ∈ tables then .error .resourceInUse else .ok (name :: tables)

/-- Modelled from the spec: the external service's `delete_table`, which
fails with `ResourceNotFound` when the name does not exist. -/
def delete_table (tables : List String) (name : String) :
    Except DbError (List String) :=
  if name ∈ tables then .ok (tables.erase name)
  else .error .resourceNotFound

/-- The notebook's create-table cell: call `create_table` and catch
`ResourceInUseException` ("Table already exists. Nothing to do."); any
other client error is printed and likewise swallowed.  The result is the
table state after the cell plus the message it prints; `Except.error`
would mean an exception escaped the cell. -/
def createTableCell (tables : List String) (name : String) :
    Except DbError (List String × String) :=
  match create_table tables name with
  | .ok ts => .ok (ts, "Table ready!")
  | .error .resourceInUse => .ok (tables, "Table already exists. Nothing to do.")
  | .error e => if e.isClientError then .ok (tables, "printed error")
                else .error e

/-- The notebook's cleanup cell: call `delete_table` and catch
`ResourceNotFoundException` ("No table found. Nothing to do."); its
`except ClientError` clause swallows any other client error silently. -/
def deleteTableCell (tables : List String) (name : String) :
    Except DbError (List String × String) :=
  match delete_table tables name with
  | .ok ts => .ok (ts, "Table deleted!")
  | .error .resourceNotFound => .ok (tables, "No table found. Nothing to do.")
  | .error e => if e.isClientError then .ok (tables, "")
                else .error e

/-- The conditional-put cell: `put_item` with
`ConditionExpression attribute_not_exists(Title)` inside
`try/except ClientError`, printing a message only for
`ConditionalCheckFailedException`.  `r` is the service's response; the
cell re-raises only non-client exceptions, and silently swallows every
other client error. -/
def condPutCell (r : Except DbError Unit) : Except DbError (Option String) :=
  match r with
  | .ok _ => .ok none
  | .error e =>
    if e = .conditionalCheckFailed then
      .ok (some "The item already exists. PutItem Canceled. ")
    else if e.isClientError then .ok none
    else .error e

/-! ## Helper lemmas -/

/-- The fuel argument does not influence `walkAux` as long as it exceeds
`150 - count`, which holds at every reachable call from `walkShard`
(entry fuel 151 at `count = 0`): the embedding's result is determined by
the source loop's own `count > 150` bound, not by the fuel. -/
theorem walkAux_fuel_irrelevant (svc : Nat → Except DbError GetRecordsRes) :
    ∀ f1 f2 res count, 150 - count < f1 → 150 - count < f2 →
      walkAux svc f1 res count = walkAux svc f2 res count := by
  intro f1
  induction f1 with
  | zero => intro f2 res count h1 _; omega
  | succ g ih =>
    intro f2 res count h1 h2
    match f2, h2 with
    | f2 + 1, _ =>
      obtain ⟨recs, nextIt⟩ := res
      cases nextIt with
      | none => rfl
      | some c =>
        cases hc : svc c with
        | error e => simp [walkAux, hc]
        | ok res2 =>
          by_cases hcount : count + 1 > 150
          · simp [walkAux, hc, hcount]
          · have heq : walkAux svc g res2 (count + 1)
                = walkAux svc f2 res2 (count + 1) :=
              ih f2 res2 (count + 1) (by omega) (by omega)
            simp [walkAux, hc, hcount, heq]

/-- The iterators fetched by the loop form a `linksTo` chain starting at
any iterator `p` whose fetch produced the current response `res`. -/
theorem walkAux_fetched_chain (svc : Nat → Except DbError GetRecordsRes) :
    ∀ fuel res count p, svc p = Except.ok res →
      List.Chain' (linksTo svc) (p :: (walkAux svc fuel res count).fetched) := by
  intro fuel
  induction fuel with
  | zero => intro res count p _; simp [walkAux]
  | succ g ih =>
    intro res count p hp
    obtain ⟨recs, nextIt⟩ := res
    cases nextIt with
    | none => simp [walkAux]
    | some c =>
      have hlink : linksTo svc p c := ⟨⟨recs, some c⟩, hp, rfl⟩
      cases hc : svc c with
      | error e => simp [walkAux, hc, hlink]
      | ok res2 =>
        by_cases hcount : count + 1 > 150
        · simp [walkAux, hc, hcount, hlink]
        · simp only [walkAux, hc, hcount, if_false, List.chain'_cons]
          exact ⟨hlink, ih res2 (count + 1) c hc⟩

/-- Walking the stable-cursor batch service from batch `k` emits exactly
the records of batches `k, k+1, …` in order, provided the poll counter
stays within the demo bound (`count + (batches.length - k) ≤ 151`) and the
fuel suffices. -/
theorem walkAux_batchService_emits (batches : List (List StreamRecord)) :
    ∀ fuel k count, k < batches.length →
      batches.length - k ≤ fuel → count + (batches.length - k) ≤ 151 →
      (walkAux (batchService batches) fuel (batchRes batches k) count).emitted
        = ((batches.drop k).flatten).map emitRecord := by
  intro fuel
  induction fuel with
  | zero => intro k count hk hf hc; omega
  | succ g ih =>
    intro k count hk hf hc
    have hget : batches.getD k [] = batches[k] := List.getD_eq_getElem _ _ hk
    have hdrop : batches.drop k = batches[k] :: batches.drop (k + 1) :=
      List.drop_eq_getElem_cons hk
    by_cases hlt : k + 1 < batches.length
    · have hcount : ¬ (count + 1 > 150) := by omega
      have hih := ih (k + 1) (count + 1) hlt (by omega) (by omega)
      simp only [batchRes] at hih
      simp only [walkAux, batchRes, batchService, hlt, if_true, hcount,
        if_false, hih, hget, hdrop, List.flatten_cons, List.map_append]
    · have hnil : batches.drop (k + 1) = [] :=
        List.drop_eq_nil_of_le (by omega)
      simp only [walkAux, batchRes, batchService, hlt, if_false, hget,
        hdrop, hnil, List.flatten_cons, List.flatten_nil, List.append_nil]

/-- Walking any service whose every fetch yields an empty batch plus a
next cursor: from poll counter `count ≤ 150` the loop runs exactly
`151 - count` more iterations, fetches `151 - count` more cursors, emits
nothing, and ends at the polling limit. -/
theorem walkAux_open_shard (svc : Nat → Except DbError GetRecordsRes)
    (hsvc : ∀ c, ∃ c2, svc c = Except.ok ⟨[], some c2⟩) :
    ∀ fuel count c2, count ≤ 150 → 151 - count ≤ fuel →
      (walkAux svc fuel ⟨[], some c2⟩ count).emitted = [] ∧
      (walkAux svc fuel ⟨[], some c2⟩ count).fetched.length = 151 - count ∧
      (walkAux svc fuel ⟨[], some c2⟩ count).outcome = .pollLimit ∧
      (walkAux svc fuel ⟨[], some c2⟩ count).iterations = 151 - count := by
  intro fuel
  induction fuel with
  | zero => intro count c2 hcount hf; omega
  | succ g ih =>
    intro count c2 hcount hf
    obtain ⟨c3, hc3⟩ := hsvc c2
    by_cases hlim : count + 1 > 150
    · have : count = 150 := by omega
      subst this
      simp [walkAux, hc3]
    · have hih := ih (count + 1) c3 (by omega) (by omega)
      simp only [walkAux, hc3, hlim, if_false, List.map_nil,
        List.nil_append, List.length_cons]
      refine ⟨hih.1, ?_, hih.2.2.1, ?_⟩
      · rw [hih.2.1]; omega
      · rw [hih.2.2.2]; omega

/-- Every listed shard that the outer loop reaches (no earlier shard's
walk aborted on an uncaught error) is walked as `walkShard` of its own
TRIM_HORIZON iterator, independently of the shards around it. -/
theorem walkAllShards_getElem (svc : Nat → Except DbError GetRecordsRes)
    (getIter : String → Nat) :
    ∀ pre : List String, ∀ (s : String) (post : List String),
      (∀ p ∈ pre, ((walkShard svc (getIter p)).outcome).isFailed = false) →
      (walkAllShards svc getIter (pre ++ s :: post))[pre.length]?
        = some (s, walkShard svc (getIter s)) := by
  intro pre
  induction pre with
  | nil =>
    intro s post _
    cases ho : (walkShard svc (getIter s)).outcome <;>
      simp [walkAllShards, ho]
  | cons p ps ih =>
    intro s post h
    have hp := h p (by simp)
    have hps : ∀ q ∈ ps, ((walkShard svc (getIter q)).outcome).isFailed = false :=
      fun q hq => h q (by simp [hq])
    cases ho : (walkShard svc (getIter p)).outcome with
    | failed e => rw [ho] at hp; simp [ShardOutcome.isFailed] at hp
    | closed n =>
      simpa [walkAllShards, ho] using ih s post hps
    | pollLimit =>
      simpa [walkAllShards, ho] using ih s post hps

/-! ## Claims -/

/-- Claim C1, counterexample: a shard whose record sequence is served as
152 batches with the single record in the last batch closes after its
last batch, yet the walker emits none of its records — the demo polling
limit cuts the walk one fetch earlier (the 152nd response is fetched but
discarded). -/
theorem stream_walker_drops_final_batch_beyond_limit :
    (walkShard (batchService cxBatches) 0).emitted = [] ∧
    (cxBatches.flatten).map emitRecord = [("INSERT", "Heiwad", "Lost Batch")] :=
  ⟨rfl, rfl⟩

/-- Claim C1 (amended): for every shard served as `B` batches with stable
cursors, closing after the last batch, with `B ≤ 151` (so the walk ends
before the demo polling limit), the walker started at the trim horizon
emits exactly the `N` records of the batches in fetch order — each as its
event kind plus key attributes, never duplicating or dropping one. -/
theorem stream_walker_emits_all_records (batches : List (List StreamRecord))
    (h : batches.length ≤ 151) :
    (walkShard (batchService batches) 0).emitted
      = (batches.flatten).map emitRecord := by
  rcases batches with _ | ⟨b, bs⟩
  · rfl
  · have h0 : 0 < (b :: bs).length := by simp
    have haux := walkAux_batchService_emits (b :: bs) 151 0 0 h0
      (by omega) (by omega)
    simpa [walkShard, batchService] using haux

/-- Witness for C1 at a concrete three-batch shard. -/
theorem stream_walker_emits_all_records_witness :
    (walkShard (batchService
        [[⟨"INSERT", "Heiwad", "The Guide to Travel and Crab Cakes"⟩], [],
         [⟨"MODIFY", "Herman Melville", "Moby Dick"⟩,
          ⟨"REMOVE", "Jill", "Ice Cream Part 2"⟩]]) 0).emitted
      = (([[⟨"INSERT", "Heiwad", "The Guide to Travel and Crab Cakes"⟩], [],
          [⟨"MODIFY", "Herman Melville", "Moby Dick"⟩,
           ⟨"REMOVE", "Jill", "Ice Cream Part 2"⟩]] :
            List (List StreamRecord)).flatten).map emitRecord :=
  stream_walker_emits_all_records _ (by decide)

/-- Claim C2, counterexample: on a shard that never closes and never
delivers records, the per-shard loop body runs 151 times, not 150 — the
strict `count > 150` check lets the counter reach 151 before the loop
ends. -/
theorem open_shard_loop_runs_151_iterations :
    (walkShard svcOpen 0).iterations = 151 ∧
    (walkShard svcOpen 0).iterations ≠ 150 :=
  ⟨rfl, by decide⟩

/-- Claim C2 (amended): for every shard that never closes (every fetch
returns zero records and a next cursor), the walker's per-shard loop
terminates after exactly 151 no-progress iterations (152 fetches in
total): the strict `count > 150` bound check lets the counter reach 151.
The run is reported as the polling limit being reached — a normal
outcome, not an error. -/
theorem open_shard_poll_limit_termination
    (svc : Nat → Except DbError GetRecordsRes) (init : Nat)
    (h : ∀ c, ∃ c2, svc c = Except.ok ⟨[], some c2⟩) :
    (walkShard svc init).iterations = 151 ∧
    (walkShard svc init).outcome = .pollLimit ∧
    (walkShard svc init).emitted = [] ∧
    (walkShard svc init).fetched.length = 152 := by
  obtain ⟨c2, hc2⟩ := h init
  have haux := walkAux_open_shard svc h 151 0 c2 (by omega) (by omega)
  simp only [walkShard, hc2, List.length_cons]
  refine ⟨haux.2.2.2, haux.2.2.1, haux.1, ?_⟩
  rw [haux.2.1]

/-- Witness for C2 at the concrete always-open service. -/
theorem open_shard_poll_limit_termination_witness :
    (walkShard svcOpen 0).iterations = 151 ∧
    (walkShard svcOpen 0).outcome = .pollLimit ∧
    (walkShard svcOpen 0).emitted = [] ∧
    (walkShard svcOpen 0).fetched.length = 152 :=
  open_shard_poll_limit_termination svcOpen 0 (fun c => ⟨c + 1, rfl⟩)

/-- Claim C3: a loop iteration whose fetch returned zero records together
with a next cursor (below the polling limit) emits no record output,
increments the poll counter by one, and continues the loop fetching the
returned cursor next. -/
theorem empty_batch_no_output_counter_increment
    (svc : Nat → Except DbError GetRecordsRes) (fuel count c : Nat)
    (res res2 : GetRecordsRes) (hrec : res.records = [])
    (hnext : res.nextShardIterator = some c)
    (hok : svc c = Except.ok res2) (hcount : count + 1 ≤ 150) :
    walkAux svc (fuel + 1) res count =
      ⟨(walkAux svc fuel res2 (count + 1)).emitted,
       c :: (walkAux svc fuel res2 (count + 1)).fetched,
       (walkAux svc fuel res2 (count + 1)).outcome,
       (walkAux svc fuel res2 (count + 1)).iterations + 1⟩ := by
  obtain ⟨recs, it⟩ := res
  simp only at hrec hnext
  subst hrec; subst hnext
  have hlim : ¬ (count + 1 > 150) := by omega
  simp [walkAux, hok, hlim]

/-- Witness for C3 at a concrete empty fetch. -/
theorem empty_batch_no_output_counter_increment_witness :
    walkAux svcOpen 1 ⟨[], some 1⟩ 0 =
      ⟨(walkAux svcOpen 0 ⟨[], some 2⟩ 1).emitted,
       1 :: (walkAux svcOpen 0 ⟨[], some 2⟩ 1).fetched,
       (walkAux svcOpen 0 ⟨[], some 2⟩ 1).outcome,
       (walkAux svcOpen 0 ⟨[], some 2⟩ 1).iterations + 1⟩ :=
  empty_batch_no_output_counter_increment svcOpen 0 0 1 ⟨[], some 1⟩
    ⟨[], some 2⟩ rfl rfl rfl (by omega)

/-- Claim C4: once a fetch response carries no next cursor, the walker
marks the shard closed and issues no further fetch for it: the rest of
that shard's walk fetches nothing, and the loop ends at once. -/
theorem no_next_cursor_closes_shard
    (svc : Nat → Except DbError GetRecordsRes) (fuel count : Nat)
    (res : GetRecordsRes) (hnone : res.nextShardIterator = none) :
    walkAux svc (fuel + 1) res count =
      ⟨res.records.map emitRecord, [], .closed count, 1⟩ := by
  obtain ⟨recs, it⟩ := res
  simp only at hnone
  subst hnone
  rfl

/-- Witness for C4 at a concrete closing response. -/
theorem no_next_cursor_closes_shard_witness :
    walkAux svcFail 3 ⟨[⟨"INSERT", "Heiwad", "The Guide to Travel and Crab Cakes"⟩], none⟩ 7 =
      ⟨[("INSERT", "Heiwad", "The Guide to Travel and Crab Cakes")], [],
        .closed 7, 1⟩ :=
  no_next_cursor_closes_shard svcFail 2 7 _ rfl

/-- Claim C9: when a response contains records but no next cursor, the
walker still emits every record of that final batch, and only then marks
the shard closed — record emission precedes the closure check, so closing
never drops the last batch. -/
theorem final_batch_emitted_before_close
    (svc : Nat → Except DbError GetRecordsRes) (fuel count : Nat)
    (res : GetRecordsRes) (hnone : res.nextShardIterator = none) :
    (walkAux svc (fuel + 1) res count).emitted = res.records.map emitRecord ∧
    (walkAux svc (fuel + 1) res count).outcome = .closed count := by
  obtain ⟨recs, it⟩ := res
  simp only at hnone
  subst hnone
  exact ⟨rfl, rfl⟩

/-- Witness for C9 at a concrete two-record terminal batch. -/
theorem final_batch_emitted_before_close_witness :
    (walkAux svcOpen 1
        ⟨[⟨"REMOVE", "The Whale", "Winning"⟩,
          ⟨"MODIFY", "Captain Ahab", "Tales from the bottom of the Sea"⟩],
         none⟩ 3).emitted
      = [("REMOVE", "The Whale", "Winning"),
         ("MODIFY", "Captain Ahab", "Tales from the bottom of the Sea")] ∧
    (walkAux svcOpen 1
        ⟨[⟨"REMOVE", "The Whale", "Winning"⟩,
          ⟨"MODIFY", "Captain Ahab", "Tales from the bottom of the Sea"⟩],
         none⟩ 3).outcome = .closed 3 :=
  final_batch_emitted_before_close svcOpen 0 3 _ rfl

/-- Claim C5: throughout a shard walk each iterator is consumed by exactly
one fetch.  The fetch sequence starts at the acquired iterator and each
later fetch uses precisely the next cursor returned by the previous fetch
(`Chain' (linksTo svc)`); when the service hands out fresh (strictly
increasing) cursors, no iterator is ever fetched twice. -/
theorem shard_iterator_single_use (svc : Nat → Except DbError GetRecordsRes)
    (init : Nat)
    (hfresh : ∀ a r b, svc a = Except.ok r →
      r.nextShardIterator = some b → a < b) :
    (walkShard svc init).fetched.head? = some init ∧
    List.Chain' (linksTo svc) (walkShard svc init).fetched ∧
    (walkShard svc init).fetched.Nodup := by
  cases hc : svc init with
  | error e => simp [walkShard, hc]
  | ok res =>
    have hchain : List.Chain' (linksTo svc)
        (init :: (walkAux svc 151 res 0).fetched) :=
      walkAux_fetched_chain svc 151 res 0 init hc
    have hlt : List.Chain' (· < ·) (init :: (walkAux svc 151 res 0).fetched) :=
      hchain.imp (fun a b h => by
        obtain ⟨r, hr, hn⟩ := h
        exact hfresh _ _ _ hr hn)
    have hnodup : (init :: (walkAux svc 151 res 0).fetched).Nodup :=
      (List.chain'_iff_pairwise.mp hlt).imp Nat.ne_of_lt
    simp only [walkShard, hc]
    exact ⟨rfl, hchain, hnodup⟩

/-- Witness for C5 at a concrete two-batch stable-cursor service. -/
theorem shard_iterator_single_use_witness :
    (walkShard (batchService [[], []]) 0).fetched.head? = some 0 ∧
    List.Chain' (linksTo (batchService [[], []]))
      (walkShard (batchService [[], []]) 0).fetched ∧
    (walkShard (batchService [[], []]) 0).fetched.Nodup :=
  shard_iterator_single_use (batchService [[], []]) 0 (by
    intro a r b hr hn
    simp only [batchService, Except.ok.injEq] at hr
    subst hr
    simp only [batchRes] at hn
    split at hn
    · cases hn; omega
    · cases hn)

/-- Claim C6: on an item whose `Version` is 2, the conditioned update
expecting version 2 succeeds and yields `Rating = 1, Version = 3`; the
identical conditioned update repeated on the result fails with
`ConditionalCheckFailed`, and the caller's handler observes that failure
rather than a second successful update. -/
theorem conditional_update_version_scenario (item : BookItem)
    (h : item.version = 2) :
    update_item_conditional item 2 1 3 = Except.ok ⟨1, 3⟩ ∧
    observeRepeatUpdate ⟨1, 3⟩ = .conditionFailed := by
  exact ⟨by simp [update_item_conditional, h], by decide⟩

/-- Witness for C6 at the notebook's Moby Dick item state. -/
theorem conditional_update_version_scenario_witness :
    update_item_conditional ⟨5, 2⟩ 2 1 3 = Except.ok ⟨1, 3⟩ ∧
    observeRepeatUpdate ⟨1, 3⟩ = .conditionFailed :=
  conditional_update_version_scenario ⟨5, 2⟩ rfl

/-- Claim C7: creating a table whose name already exists completes as a
no-op success (the exists-error is caught, the table state is unchanged),
and deleting a missing table is likewise a caught no-op. -/
theorem create_delete_table_noop (tables : List String) (name : String)
    (h1 : name ∈ tables) (tables2 : List String) (name2 : String)
    (h2 : name2 ∉ tables2) :
    createTableCell tables name
      = Except.ok (tables, "Table already exists. Nothing to do.") ∧
    deleteTableCell tables2 name2
      = Except.ok (tables2, "No table found. Nothing to do.") := by
  constructor
  · simp [createTableCell, create_table, h1]
  · simp [deleteTableCell, delete_table, h2]

/-- Witness for C7 on the notebook's `books` table name. -/
theorem create_delete_table_noop_witness :
    createTableCell ["books"] "books"
      = Except.ok (["books"], "Table already exists. Nothing to do.") ∧
    deleteTableCell [] "books"
      = Except.ok (([] : List String), "No table found. Nothing to do.") :=
  create_delete_table_noop ["books"] "books" (by decide) [] "books" (by decide)

/-- Claim C8, counterexample: a generic client-level service error
(throttling/auth) raised by the conditional put does not surface to the
caller — the cell's `except ClientError` handler catches it and completes
silently, contradicting the claimed pass-through for that operation. -/
theorem cond_put_swallows_generic_client_error :
    condPutCell (Except.error DbError.serviceError) = Except.ok none ∧
    condPutCell (Except.error DbError.serviceError)
      ≠ Except.error DbError.serviceError :=
  ⟨rfl, fun h => Except.noConfusion h⟩

/-- Claim C8 (amended): inside the shard walker every fetch failure
propagates uncaught — a failing initial fetch aborts before the loop, a
failing in-loop fetch ends the walk at once with the error, and the
failing cursor is fetched exactly once (no retry).  The conditional put,
however, passes through only non-client exceptions (e.g. network
failures); generic client-level errors are caught by its
`except ClientError` handler. -/
theorem walker_error_passthrough_no_retry
    (svc svc2 : Nat → Except DbError GetRecordsRes)
    (fuel count init c : Nat) (res : GetRecordsRes) (e e2 e3 : DbError)
    (hnext : res.nextShardIterator = some c)
    (herr : svc c = Except.error e)
    (hinit : svc2 init = Except.error e2)
    (hnc : e3.isClientError = false) :
    walkAux svc (fuel + 1) res count
      = ⟨res.records.map emitRecord, [c], .failed e, 1⟩ ∧
    walkShard svc2 init = ⟨[], [init], .failed e2, 0⟩ ∧
    condPutCell (Except.error e3) = Except.error e3 := by
  refine ⟨?_, ?_, ?_⟩
  · obtain ⟨recs, it⟩ := res
    simp only at hnext
    subst hnext
    simp [walkAux, herr]
  · simp [walkShard, hinit]
  · have hne : e3 ≠ .conditionalCheckFailed := by
      intro hh
      subst hh
      simp [DbError.isClientError] at hnc
    simp [condPutCell, hne, hnc]

/-- Witness for C8 at concrete failing fetches and a network error. -/
theorem walker_error_passthrough_no_retry_witness :
    walkAux svcFail 1 ⟨[], some 4⟩ 0
      = ⟨[], [4], .failed DbError.serviceError, 1⟩ ∧
    walkShard svcFail 0 = ⟨[], [0], .failed DbError.serviceError, 0⟩ ∧
    condPutCell (Except.error DbError.networkError)
      = Except.error DbError.networkError :=
  walker_error_passthrough_no_retry svcFail svcFail 0 0 0 4 ⟨[], some 4⟩
    DbError.serviceError DbError.serviceError DbError.networkError
    rfl rfl rfl rfl

/-- Claim C10: shard walks are mutually independent — every listed shard
the outer loop reaches (no earlier walk aborted on an uncaught fetch
error) is walked with its own freshly acquired TRIM_HORIZON iterator
(its first fetch is exactly that iterator) and its own poll counter
starting at zero, so its emitted records and termination behaviour are
exactly `walkShard` of its own service view, unchanged by the shards
processed before it. -/
theorem shard_walks_independent (svc : Nat → Except DbError GetRecordsRes)
    (getIter : String → Nat) (pre post : List String) (s : String)
    (h : ∀ p ∈ pre, ((walkShard svc (getIter p)).outcome).isFailed = false) :
    (walkAllShards svc getIter (pre ++ s :: post))[pre.length]?
      = some (s, walkShard svc (getIter s)) ∧
    (walkShard svc (getIter s)).fetched.head? = some (getIter s) := by
  refine ⟨walkAllShards_getElem svc getIter pre s post h, ?_⟩
  cases hc : svc (getIter s) <;> simp [walkShard, hc]

/-- Witness for C10 at two concrete shards of the always-open service. -/
theorem shard_walks_independent_witness :
    (walkAllShards svcOpen (fun _ => 0)
        (["shardId-A"] ++ "shardId-B" :: []))[(["shardId-A"] : List String).length]?
      = some ("shardId-B", walkShard svcOpen 0) ∧
    (walkShard svcOpen 0).fetched.head? = some 0 :=
  shard_walks_independent svcOpen (fun _ => 0) ["shardId-A"] [] "shardId-B"
    (fun _ _ => rfl)
